import Mathlib

/-!
Verification of the access-control core of the secure_file_manager repository
(filemanager/views.py and filemanager/models.py), embedded shallowly.

Users are identified by their numeric id.  Django model instances compare by
primary key, so the comparison of the request user with a file's owner is a
comparison of ids.  Timestamps are natural numbers; the injected clock is a
plain argument.  Visibility values, permission levels and the requested
operation are strings, exactly as in the Python source (CharField columns and
a string parameter), so that out-of-range values stay representable.
-/

/-- A row of the UserFile table (models.py); only the columns the
access-control logic reads, plus the columns edit_file can change. -/
structure UserFile where
  id : Nat
  owner : Nat
  visibility : String
  name : String
  description : String
deriving DecidableEq, Repr

/-- A row of the FileAccess table (models.py): a grant of a permission level
on a file to a user, with an optional expiry timestamp. -/
structure FileAccess where
  file : Nat
  user : Nat
  permission : String
  granted_by : Nat
  expires_at : Option Nat
deriving DecidableEq, Repr

/-- The FileAccess.objects.get(file=file_obj, user=user) lookup of
can_access_file: the row of the grant store for this (file, user) pair,
or none, which the Python code observes as FileAccess.DoesNotExist. -/
def find_access (store : List FileAccess) (file_id user : Nat) :
    Option FileAccess :=
  store.find? (fun a => a.file == file_id && a.user == user)

/-- The expiry test of views.py line 469: access.expires_at is truthy (a
datetime is always truthy, so truthiness is non-nullness) and strictly
earlier than timezone.now. -/
def is_expired (expires_at : Option Nat) (now : Nat) : Bool :=
  match expires_at with
  | some e => e < now
  | none => false

/-- can_access_file (views.py, lines 444-484), translated branch by branch.
store is the FileAccess table and now is the value of timezone.now (the
injected clock).  Owner check first; then public, private, restricted; an
unrecognized visibility, a missing grant, an expired grant and an
unrecognized permission_type all fall through to the final return False. -/
def can_access_file (store : List FileAccess) (now : Nat)
    (user : Nat) (file_obj : UserFile) (permission_type : String) : Bool :=
  -- Owner has all permissions
  if file_obj.owner == user then
    true
  -- Public files - anyone can view and download
  else if file_obj.visibility == "public" then
    permission_type == "view" || permission_type == "download"
  -- Private files - only owner
  else if file_obj.visibility == "private" then
    false
  -- Restricted files - check specific permissions
  else if file_obj.visibility == "restricted" then
    match find_access store file_obj.id user with
    | none => false
    | some access =>
      -- Check if access has expired
      if is_expired access.expires_at now then
        false
      -- Check permission level
      else if permission_type == "view" then
        true
      else if permission_type == "download" then
        access.permission == "download" || access.permission == "edit"
      else if permission_type == "edit" then
        access.permission == "edit"
      else
        false
  else
    false

/-- The permission-level comparison of the restricted branch in isolation:
what a non-expired grant of level granted authorizes for the requested
operation, as written in views.py lines 473-479. -/
def perm_allows (granted op : String) : Bool :=
  if op == "view" then true
  else if op == "download" then granted == "download" || granted == "edit"
  else if op == "edit" then granted == "edit"
  else false

/-- can_access_file with the grant store threaded through as explicit state.
The Python function's only interaction with the store is the single read
FileAccess.objects.get; every branch is a plain return, so each exit pairs
its boolean with the store it received. -/
def can_access_file_st (store : List FileAccess) (now : Nat)
    (user : Nat) (file_obj : UserFile) (permission_type : String) :
    Bool × List FileAccess :=
  if file_obj.owner == user then
    (true, store)
  else if file_obj.visibility == "public" then
    (permission_type == "view" || permission_type == "download", store)
  else if file_obj.visibility == "private" then
    (false, store)
  else if file_obj.visibility == "restricted" then
    match find_access store file_obj.id user with
    | none => (false, store)
    | some access =>
      if is_expired access.expires_at now then
        (false, store)
      else if permission_type == "view" then
        (true, store)
      else if permission_type == "download" then
        (access.permission == "download" || access.permission == "edit", store)
      else if permission_type == "edit" then
        (access.permission == "edit", store)
      else
        (false, store)
  else
    (false, store)

/-- The grant-writing core of share_file (views.py, lines 308-322):
FileAccess.objects.get_or_create on the (file, user) pair, followed, when the
row already existed, by overwriting its permission and expires_at and saving.
The row is created at the end of the table when absent; granted_by is set
only on creation, never on update, exactly as in the source (it appears only
in the defaults of get_or_create). -/
def share_file_upsert (store : List FileAccess) (file_id target_user : Nat)
    (permission : String) (granted_by : Nat) (expires_at : Option Nat) :
    List FileAccess :=
  match store with
  | [] => [⟨file_id, target_user, permission, granted_by, expires_at⟩]
  | a :: rest =>
    if a.file == file_id && a.user == target_user then
      { a with permission := permission, expires_at := expires_at } :: rest
    else
      a :: share_file_upsert rest file_id target_user permission granted_by
            expires_at

/-- The unique_together invariant of FileAccess.Meta (models.py lines 91-92):
no two rows of the grant store share the same (file, user) pair. -/
def unique_grants (store : List FileAccess) : Prop :=
  (store.map (fun a => (a.file, a.user))).Nodup

instance (store : List FileAccess) : Decidable (unique_grants store) :=
  inferInstanceAs
    (Decidable ((store.map (fun (a : FileAccess) => (a.file, a.user))).Nodup))

/-- The outcome of a Django view: either an Http404 raised by
get_object_or_404, or a normal response together with the resulting file
table. -/
inductive ViewOutcome where
  | http404
  | ok (files : List UserFile)
deriving DecidableEq, Repr

/-- edit_file (views.py, lines 201-203 and the POST branch): the file is
fetched with get_object_or_404(UserFile, id=file_id, owner=request.user), so
a request by anyone but the owner raises Http404 before anything is touched;
otherwise the valid form overwrites the fetched row's editable fields
(FileEditForm: name, description, category, visibility). -/
def edit_file (files : List UserFile) (user file_id : Nat)
    (new_name new_description new_visibility : String) : ViewOutcome :=
  match files.find? (fun f => f.id == file_id && f.owner == user) with
  | none => ViewOutcome.http404
  | some _ =>
    ViewOutcome.ok
      (files.map (fun f =>
        if f.id == file_id && f.owner == user then
          { f with name := new_name, description := new_description,
                   visibility := new_visibility }
        else f))

/-! ## Theorems about can_access_file -/

/-- C2: for every file and every operation, if the requesting principal is
the file's owner then can_access_file returns Allow, regardless of
visibility and regardless of any Grant's presence, level or expiry (the
store and clock are universally quantified); the owner test is the first
branch of the function. -/
theorem c2_owner_always_allowed (store : List FileAccess) (now user : Nat)
    (f : UserFile) (op : String) (h : f.owner = user) :
    can_access_file store now user f op = true := by
  simp [can_access_file, h]

/-- Witness for C2: a concrete owner request on a private file with no
grant is allowed for the edit operation. -/
theorem c2_owner_always_allowed_witness :
    can_access_file [] 0 7 ⟨1, 7, "private", "a", "b"⟩ "edit" = true :=
  c2_owner_always_allowed [] 0 7 ⟨1, 7, "private", "a", "b"⟩ "edit" rfl

/-- C3: for every public file and every non-owner principal, view and
download are allowed and edit is denied, whatever the grant store holds. -/
theorem c3_public_nonowner (store : List FileAccess) (now user : Nat)
    (f : UserFile) (hown : f.owner ≠ user) (hvis : f.visibility = "public") :
    can_access_file store now user f "view" = true ∧
    can_access_file store now user f "download" = true ∧
    can_access_file store now user f "edit" = false := by
  have ho : (f.owner == user) = false := by simpa using hown
  refine ⟨?_, ?_, ?_⟩ <;> simp [can_access_file, ho, hvis]

/-- Witness for C3: a concrete public file, a non-owner holding an edit
grant in the store; view and download allowed, edit denied. -/
theorem c3_public_nonowner_witness :
    can_access_file [⟨1, 9, "edit", 7, none⟩] 0 9 ⟨1, 7, "public", "a", "b"⟩
        "view" = true ∧
    can_access_file [⟨1, 9, "edit", 7, none⟩] 0 9 ⟨1, 7, "public", "a", "b"⟩
        "download" = true ∧
    can_access_file [⟨1, 9, "edit", 7, none⟩] 0 9 ⟨1, 7, "public", "a", "b"⟩
        "edit" = false :=
  c3_public_nonowner [⟨1, 9, "edit", 7, none⟩] 0 9 ⟨1, 7, "public", "a", "b"⟩
    (by decide) rfl

/-- C4: for every private file and every non-owner principal, every
operation is denied; the grant store is universally quantified, so no grant
row for the (file, principal) pair is ever honored on a private file. -/
theorem c4_private_nonowner_denied (store : List FileAccess) (now user : Nat)
    (f : UserFile) (op : String) (hown : f.owner ≠ user)
    (hvis : f.visibility = "private") :
    can_access_file store now user f op = false := by
  have ho : (f.owner == user) = false := by simpa using hown
  simp [can_access_file, ho, hvis]

/-- Witness for C4: a concrete private file with an unexpired edit grant for
the requester in the store; download is still denied. -/
theorem c4_private_nonowner_denied_witness :
    can_access_file [⟨1, 9, "edit", 7, none⟩] 0 9 ⟨1, 7, "private", "a", "b"⟩
        "download" = false :=
  c4_private_nonowner_denied [⟨1, 9, "edit", 7, none⟩] 0 9
    ⟨1, 7, "private", "a", "b"⟩ "download" (by decide) rfl

/-- C5: for a restricted file, a non-owner principal and a non-expired grant
found for the pair, view is allowed by any level, download exactly when the
granted level is download or edit, and edit exactly when the granted level
is edit; in particular a download-level grant never allows edit. -/
theorem c5_restricted_levels (store : List FileAccess) (now user : Nat)
    (f : UserFile) (a : FileAccess) (hown : f.owner ≠ user)
    (hvis : f.visibility = "restricted")
    (hfind : find_access store f.id user = some a)
    (hexp : is_expired a.expires_at now = false) :
    can_access_file store now user f "view" = true ∧
    can_access_file store now user f "download"
      = (a.permission == "download" || a.permission == "edit") ∧
    can_access_file store now user f "edit" = (a.permission == "edit") := by
  have ho : (f.owner == user) = false := by simpa using hown
  refine ⟨?_, ?_, ?_⟩ <;> simp [can_access_file, ho, hvis, hfind, hexp]

/-- Witness for C5: the spec's example, a restricted file with a
download-level grant and no expiry; view and download allowed, edit
denied. -/
theorem c5_restricted_levels_witness :
    can_access_file [⟨1, 9, "download", 7, none⟩] 0 9
        ⟨1, 7, "restricted", "a", "b"⟩ "view" = true ∧
    can_access_file [⟨1, 9, "download", 7, none⟩] 0 9
        ⟨1, 7, "restricted", "a", "b"⟩ "download" = true ∧
    can_access_file [⟨1, 9, "download", 7, none⟩] 0 9
        ⟨1, 7, "restricted", "a", "b"⟩ "edit" = false := by
  have h := c5_restricted_levels [⟨1, 9, "download", 7, none⟩] 0 9
    ⟨1, 7, "restricted", "a", "b"⟩ ⟨1, 9, "download", 7, none⟩
    (by decide) rfl rfl rfl
  exact ⟨h.1, h.2.1, h.2.2⟩

/-- C6: for a restricted file and a non-owner principal, every operation is
denied when no grant row exists for the pair, and likewise when the found
grant has a non-null expiry strictly in the past. -/
theorem c6_no_or_expired_grant_denied (store : List FileAccess)
    (now user : Nat) (f : UserFile) (hown : f.owner ≠ user)
    (hvis : f.visibility = "restricted") :
    (find_access store f.id user = none →
      ∀ op, can_access_file store now user f op = false) ∧
    (∀ a e, find_access store f.id user = some a → a.expires_at = some e →
      e < now → ∀ op, can_access_file store now user f op = false) := by
  have ho : (f.owner == user) = false := by simpa using hown
  constructor
  · intro hfind op
    simp [can_access_file, ho, hvis, hfind]
  · intro a e hfind he hlt op
    have hexp : is_expired a.expires_at now = true := by
      simp [is_expired, he, hlt]
    simp [can_access_file, ho, hvis, hfind, hexp]

/-- Witness for C6: with an empty store the download operation is denied,
and with an edit-level grant expired one tick before the clock the edit
operation is denied. -/
theorem c6_no_or_expired_grant_denied_witness :
    can_access_file [] 5 9 ⟨1, 7, "restricted", "a", "b"⟩ "download" = false ∧
    can_access_file [⟨1, 9, "edit", 7, some 4⟩] 5 9
        ⟨1, 7, "restricted", "a", "b"⟩ "edit" = false := by
  constructor
  · exact (c6_no_or_expired_grant_denied [] 5 9 ⟨1, 7, "restricted", "a", "b"⟩
      (by decide) rfl).1 rfl "download"
  · exact (c6_no_or_expired_grant_denied [⟨1, 9, "edit", 7, some 4⟩] 5 9
      ⟨1, 7, "restricted", "a", "b"⟩ (by decide) rfl).2
      ⟨1, 9, "edit", 7, some 4⟩ 4 rfl rfl (by decide) "edit"

/-- C7: can_access_file is a total boolean function with no error outcome;
for a non-owner, a visibility outside the three known values resolves to
Deny through the final return False, a missing grant row resolves to Deny,
and an expired grant row resolves to Deny. -/
theorem c7_total_never_raises (store : List FileAccess) (now user : Nat)
    (f : UserFile) (hown : f.owner ≠ user) :
    (f.visibility ≠ "public" → f.visibility ≠ "private" →
      f.visibility ≠ "restricted" →
      ∀ op, can_access_file store now user f op = false) ∧
    (f.visibility = "restricted" → find_access store f.id user = none →
      ∀ op, can_access_file store now user f op = false) ∧
    (∀ a e, f.visibility = "restricted" →
      find_access store f.id user = some a → a.expires_at = some e →
      e < now → ∀ op, can_access_file store now user f op = false) := by
  have ho : (f.owner == user) = false := by simpa using hown
  refine ⟨?_, ?_, ?_⟩
  · intro h1 h2 h3 op
    have b1 : (f.visibility == "public") = false := by simpa using h1
    have b2 : (f.visibility == "private") = false := by simpa using h2
    have b3 : (f.visibility == "restricted") = false := by simpa using h3
    simp [can_access_file, ho, b1, b2, b3]
  · intro hvis hfind op
    simp [can_access_file, ho, hvis, hfind]
  · intro a e hvis hfind he hlt op
    have hexp : is_expired a.expires_at now = true := by
      simp [is_expired, he, hlt]
    simp [can_access_file, ho, hvis, hfind, hexp]

/-- Witness for C7: a file whose visibility column holds the out-of-range
string archived is denied for view rather than producing an error. -/
theorem c7_total_never_raises_witness :
    can_access_file [] 0 9 ⟨1, 7, "archived", "a", "b"⟩ "view" = false :=
  (c7_total_never_raises [] 0 9 ⟨1, 7, "archived", "a", "b"⟩
    (by decide)).1 (by decide) (by decide) (by decide) "view"

/-- C1 counterexample: the claim says a grant whose expires_at equals the
clock is treated as expired, with Deny for every operation; but on views.py
line 469 the expired condition is the strict expires_at less-than now, so at
equality the grant is honored: a non-owner with a view-level grant expiring
exactly at now is Allowed to view the restricted file. -/
theorem c1_equality_denies_counterexample :
    can_access_file [⟨1, 9, "view", 7, some 100⟩] 100 9
      ⟨1, 7, "restricted", "a", "b"⟩ "view" = true := by
  decide

/-- C1 amended: a grant whose expires_at is exactly equal to now is treated
as NOT expired (the expired condition on views.py line 469 is the strict
expires_at less-than now, so equality still allows), and the decision is the
ordinary permission-level comparison of the active-grant path. -/
theorem c1_expiry_equal_now_not_expired (store : List FileAccess)
    (now user : Nat) (f : UserFile) (a : FileAccess) (op : String)
    (hown : f.owner ≠ user) (hvis : f.visibility = "restricted")
    (hfind : find_access store f.id user = some a)
    (hexp : a.expires_at = some now) :
    can_access_file store now user f op = perm_allows a.permission op := by
  have ho : (f.owner == user) = false := by simpa using hown
  have hni : is_expired a.expires_at now = false := by
    simp [is_expired, hexp]
  simp only [can_access_file, perm_allows, ho, hvis, hfind, hni]
  simp

/-- Witness for C1 amended: an edit-level grant expiring exactly at the
clock still authorizes the edit operation. -/
theorem c1_expiry_equal_now_not_expired_witness :
    can_access_file [⟨1, 9, "edit", 7, some 100⟩] 100 9
      ⟨1, 7, "restricted", "a", "b"⟩ "edit" = true := by
  have h := c1_expiry_equal_now_not_expired [⟨1, 9, "edit", 7, some 100⟩]
    100 9 ⟨1, 7, "restricted", "a", "b"⟩ ⟨1, 9, "edit", 7, some 100⟩ "edit"
    (by decide) rfl rfl rfl
  simpa [perm_allows] using h

/-- C8: can_access_file is pure and deterministic; the state-passing
translation returns exactly the pure function's boolean together with the
grant store it was given, unchanged, so repeated calls with the same
principal, file, operation, store and clock agree and nothing is mutated. -/
theorem c8_pure_deterministic (store : List FileAccess) (now user : Nat)
    (f : UserFile) (op : String) :
    can_access_file_st store now user f op
      = (can_access_file store now user f op, store) := by
  unfold can_access_file_st can_access_file
  repeat' split
  all_goals rfl

/-! ## Theorems about share_file and edit_file -/

/-- The (file, user) key of a grant row, the column pair of the
unique_together constraint. -/
def grant_key (a : FileAccess) : Nat × Nat := (a.file, a.user)

lemma unique_grants_iff (store : List FileAccess) :
    unique_grants store ↔ (store.map grant_key).Nodup := by
  unfold unique_grants grant_key
  exact Iff.rfl

/-- The key column of the store after the share upsert: unchanged when a row
for the pair already existed, extended by the new pair otherwise. -/
lemma share_file_upsert_keys (store : List FileAccess) (fid u : Nat)
    (p : String) (gb : Nat) (e : Option Nat) :
    (share_file_upsert store fid u p gb e).map grant_key
      = if store.any (fun a => a.file == fid && a.user == u)
        then store.map grant_key
        else store.map grant_key ++ [(fid, u)] := by
  induction store with
  | nil => simp [share_file_upsert, grant_key]
  | cons a rest ih =>
    by_cases hm : (a.file == fid && a.user == u) = true
    · have hfu : a.file = fid ∧ a.user = u := by simpa using hm
      simp [share_file_upsert, hm, grant_key, hfu.1, hfu.2]
    · simp only [share_file_upsert, hm, if_neg, Bool.false_eq_true,
        not_false_iff, List.map_cons, List.any_cons, Bool.false_or, ih]
      by_cases ha : (rest.any fun a => a.file == fid && a.user == u) = true
      · simp [ha, hm]
      · simp only [Bool.not_eq_true] at ha
        simp [ha, hm]

/-- C9: an upsert by the share operation preserves the at-most-one-grant-per
(file, grantee) invariant; when a grant for the pair already exists the
table keeps its length (the row is overwritten, not duplicated); and after
the upsert the table holds a row for the pair carrying the new permission
level and expiry. -/
theorem c9_share_upsert_invariant (store : List FileAccess) (fid u : Nat)
    (p : String) (gb : Nat) (e : Option Nat) (h : unique_grants store) :
    unique_grants (share_file_upsert store fid u p gb e) ∧
    ((∃ a ∈ store, a.file = fid ∧ a.user = u) →
      (share_file_upsert store fid u p gb e).length = store.length) ∧
    (∃ b ∈ share_file_upsert store fid u p gb e,
      b.file = fid ∧ b.user = u ∧ b.permission = p ∧ b.expires_at = e) := by
  have hkeys := share_file_upsert_keys store fid u p gb e
  refine ⟨?_, ?_, ?_⟩
  · rw [unique_grants_iff] at h ⊢
    rw [hkeys]
    by_cases ha : (store.any fun a => a.file == fid && a.user == u) = true
    · simpa [ha] using h
    · simp only [Bool.not_eq_true] at ha
      rw [if_neg (by simp [ha])]
      rw [List.nodup_append]
      refine ⟨h, List.nodup_singleton _, ?_⟩
      intro k hk hk1
      simp only [List.mem_singleton] at hk1
      subst hk1
      rcases List.mem_map.1 hk with ⟨a, hamem, hak⟩
      have : (a.file == fid && a.user == u) = true := by
        unfold grant_key at hak
        have h1 : a.file = fid := congrArg Prod.fst hak
        have h2 : a.user = u := congrArg Prod.snd hak
        simp [h1, h2]
      have hco : (store.any fun a => a.file == fid && a.user == u) = true :=
        List.any_eq_true.2 ⟨a, hamem, this⟩
      rw [ha] at hco
      exact Bool.false_ne_true hco
  · intro ⟨a, hamem, haf, hau⟩
    have ha : (store.any fun b => b.file == fid && b.user == u) = true :=
      List.any_eq_true.2 ⟨a, hamem, by simp [haf, hau]⟩
    have hlen := congrArg List.length hkeys
    rw [if_pos ha] at hlen
    simpa using hlen
  · clear hkeys h
    induction store with
    | nil => exact ⟨⟨fid, u, p, gb, e⟩, by simp [share_file_upsert]⟩
    | cons a rest ih =>
      by_cases hm : (a.file == fid && a.user == u) = true
      · have hfu : a.file = fid ∧ a.user = u := by simpa using hm
        exact ⟨{ a with permission := p, expires_at := e },
          by simp [share_file_upsert, hm], hfu.1, hfu.2, rfl, rfl⟩
      · rcases ih with ⟨b, hbmem, hb⟩
        exact ⟨b, by simp [share_file_upsert, hm, hbmem], hb⟩

/-- Witness for C9: upserting an edit grant over an existing view grant for
the same (file, user) pair keeps the invariant, keeps the single row, and
that row now carries the edit level and the new expiry. -/
theorem c9_share_upsert_invariant_witness :
    unique_grants (share_file_upsert [⟨1, 9, "view", 7, none⟩] 1 9 "edit" 7
      (some 50)) ∧
    ((∃ a ∈ [(⟨1, 9, "view", 7, none⟩ : FileAccess)],
        a.file = 1 ∧ a.user = 9) →
      (share_file_upsert [⟨1, 9, "view", 7, none⟩] 1 9 "edit" 7
        (some 50)).length = [(⟨1, 9, "view", 7, none⟩ : FileAccess)].length) ∧
    (∃ b ∈ share_file_upsert [⟨1, 9, "view", 7, none⟩] 1 9 "edit" 7 (some 50),
      b.file = 1 ∧ b.user = 9 ∧ b.permission = "edit" ∧
      b.expires_at = some 50) :=
  c9_share_upsert_invariant [⟨1, 9, "view", 7, none⟩] 1 9 "edit" 7 (some 50)
    (by decide)

/-- Primary-key uniqueness of the UserFile table: no two rows share an
id. -/
def unique_file_ids (files : List UserFile) : Prop :=
  (files.map (fun f => f.id)).Nodup

instance (files : List UserFile) : Decidable (unique_file_ids files) :=
  inferInstanceAs
    (Decidable ((files.map (fun (f : UserFile) => f.id)).Nodup))

/-- C10: edit_file fetches with get_object_or_404 filtered on
owner=request.user, so a request on a file by anyone but its owner raises
Http404 and the file table is never touched, even when the requester holds
an active edit-level grant for which can_access_file answers Allow. -/
theorem c10_edit_requires_ownership (files : List UserFile)
    (store : List FileAccess) (now user fid : Nat) (f : UserFile)
    (nn nd nv : String) (hmem : f ∈ files) (hid : f.id = fid)
    (hown : f.owner ≠ user) (hnodup : unique_file_ids files)
    (_hallow : can_access_file store now user f "edit" = true) :
    edit_file files user fid nn nd nv = ViewOutcome.http404 := by
  unfold edit_file
  have hnone : files.find? (fun g => g.id == fid && g.owner == user) = none := by
    rw [List.find?_eq_none]
    intro g hg hgp
    have hgfu : g.id = fid ∧ g.owner = user := by simpa using hgp
    have hgid : g.id = f.id := by rw [hgfu.1, hid]
    have : g = f :=
      List.inj_on_of_nodup_map hnodup hg hmem hgid
    rw [this] at hgfu
    exact hown hgfu.2
  rw [hnone]

/-- Witness for C10: a non-owner holding an unexpired edit grant on a
restricted file is allowed to edit by can_access_file, yet the edit endpoint
answers Http404 on that very request. -/
theorem c10_edit_requires_ownership_witness :
    can_access_file [⟨1, 9, "edit", 7, none⟩] 0 9
      ⟨1, 7, "restricted", "a", "b"⟩ "edit" = true ∧
    edit_file [⟨1, 7, "restricted", "a", "b"⟩] 9 1 "x" "y" "public"
      = ViewOutcome.http404 :=
  ⟨by decide,
   c10_edit_requires_ownership [⟨1, 7, "restricted", "a", "b"⟩]
     [⟨1, 9, "edit", 7, none⟩] 0 9 1 ⟨1, 7, "restricted", "a", "b"⟩
     "x" "y" "public" (by simp) rfl (by decide) (by decide) (by decide)⟩
